import Mathlib

/-!
Verification of the AI PPT maker repository (pptmaker_x.py, ppt_generator.py,
html_generator.py, app.py) against its natural-language specification.

The Python slide-content dictionaries are embedded as association lists of
string keys and `Value` payloads; Python `dict` operations (`update`, `get`,
key membership, single-key assignment) are embedded below preserving the
iteration order and in-place-replacement semantics of CPython dicts.
External collaborators (the OpenAI chat call, `json.loads`) are opaque to the
repository and are passed in as parameters: the service response as a plain
character list, the JSON parser as a function into `Option`.
-/

/-- JSON-ish payload values stored in a slide-content dictionary
(strings, bullet lists, numbers, booleans). -/
inductive Value where
  | vStr : String → Value
  | vList : List String → Value
  | vNat : Nat → Value
  | vBool : Bool → Value
deriving DecidableEq, Repr

/-- A Python dict as an ordered association list (CPython preserves
insertion order). -/
abbrev Dict := List (String × Value)

/-- Lookup of a key in an association list, first match
(Python dicts have unique keys, so first match is the match). -/
def alist_lookup {α : Type} : List (String × α) → String → Option α
  | [], _ => none
  | (k, v) :: rest, key => if k = key then some v else alist_lookup rest key

/-- Key membership test, embedding Python `key in d`. -/
def alist_hasKey {α : Type} (l : List (String × α)) (key : String) : Bool :=
  (alist_lookup l key).isSome

/-- Last-binding lookup: the value of the last entry carrying the key.
On a genuine Python dict (unique keys) it agrees with `alist_lookup`. -/
def lookup_last : Dict → String → Option Value
  | [], _ => none
  | (k, v) :: rest, key =>
    match lookup_last rest key with
    | some w => some w
    | none => if k = key then some v else none

/-- Single-key assignment `d[k] = v` of a CPython dict: an existing key is
overwritten in place (keeping its position), a new key is appended. -/
def dict_set (d : Dict) (k : String) (v : Value) : Dict :=
  if d.any (fun kv => kv.1 = k) then
    d.map (fun kv => if kv.1 = k then (k, v) else kv)
  else d ++ [(k, v)]

/-- Python `d.update(patch)`: assign every binding of `patch` into `d`, in
`patch` iteration order (so for a duplicated key the last write wins). -/
def dict_update (d : Dict) (patch : Dict) : Dict :=
  patch.foldl (fun acc kv => dict_set acc kv.1 kv.2) d

theorem alist_lookup_mem {α : Type} (l : List (String × α)) (key : String) (v : α)
    (h : alist_lookup l key = some v) : v ∈ l.map Prod.snd := by
  induction l with
  | nil => simp [alist_lookup] at h
  | cons kv rest ih =>
    obtain ⟨k, w⟩ := kv
    by_cases hk : k = key
    · simp [alist_lookup, hk] at h
      simp [h]
    · simp [alist_lookup, hk] at h
      simpa using Or.inr (ih h)

theorem alist_lookup_map_replace (d : Dict) (k : String) (v : Value) (key : String) :
    alist_lookup (d.map (fun kv => if kv.1 = k then (k, v) else kv)) key =
      if k = key then (if alist_hasKey d k then some v else none)
      else alist_lookup d key := by
  induction d with
  | nil =>
    by_cases hk : k = key <;> simp [alist_lookup, alist_hasKey, hk]
  | cons kv rest ih =>
    obtain ⟨k0, v0⟩ := kv
    rw [List.map_cons]
    by_cases hk0 : k0 = k
    · rw [show (if (k0, v0).1 = k then (k, v) else (k0, v0)) = (k, v) by simp [hk0]]
      by_cases hkey : k = key
      · subst hkey
        simp [alist_lookup, alist_hasKey, hk0]
      · have h2 : alist_lookup ((k, v) :: rest.map (fun kv => if kv.1 = k then (k, v) else kv)) key
            = alist_lookup (rest.map (fun kv => if kv.1 = k then (k, v) else kv)) key := by
          simp [alist_lookup, hkey]
        rw [h2, ih]
        simp [alist_lookup, hkey, hk0]
    · rw [show (if (k0, v0).1 = k then (k, v) else (k0, v0)) = (k0, v0) by simp [hk0]]
      by_cases hkey : k0 = key
      · subst hkey
        have hkk : ¬ (k = k0) := fun h => hk0 h.symm
        simp [alist_lookup, hkk]
      · have h2 : alist_lookup ((k0, v0) :: rest.map (fun kv => if kv.1 = k then (k, v) else kv)) key
            = alist_lookup (rest.map (fun kv => if kv.1 = k then (k, v) else kv)) key := by
          simp [alist_lookup, hkey]
        rw [h2, ih]
        by_cases hk : k = key <;> simp [alist_lookup, alist_hasKey, hk, hkey, hk0]

theorem alist_lookup_append (d tail : Dict) (key : String) :
    alist_lookup (d ++ tail) key =
      match alist_lookup d key with
      | some v => some v
      | none => alist_lookup tail key := by
  induction d with
  | nil => simp [alist_lookup]
  | cons kv rest ih =>
    obtain ⟨k0, v0⟩ := kv
    by_cases hk0 : k0 = key <;> simp [alist_lookup, hk0, ih]

theorem alist_hasKey_eq_any (d : Dict) (k : String) :
    alist_hasKey d k = d.any (fun kv => kv.1 = k) := by
  induction d with
  | nil => simp [alist_hasKey, alist_lookup]
  | cons kv rest ih =>
    obtain ⟨k0, v0⟩ := kv
    by_cases hk0 : k0 = k <;> simp [alist_hasKey, alist_lookup, hk0] at ih ⊢ <;> exact ih

theorem alist_lookup_none_of_not_hasKey {α : Type} (d : List (String × α)) (k : String)
    (h : alist_hasKey d k = false) : alist_lookup d k = none := by
  unfold alist_hasKey at h
  cases hl : alist_lookup d k with
  | none => rfl
  | some v => rw [hl] at h; simp at h

theorem alist_lookup_set (d : Dict) (k : String) (v : Value) (key : String) :
    alist_lookup (dict_set d k v) key = if k = key then some v else alist_lookup d key := by
  unfold dict_set
  by_cases hmem : d.any (fun kv => kv.1 = k) = true
  · rw [if_pos hmem, alist_lookup_map_replace]
    have hhk : alist_hasKey d k = true := by rw [alist_hasKey_eq_any]; exact hmem
    by_cases hk : k = key
    · subst hk
      simp [hhk]
    · simp [hk]
  · rw [if_neg hmem, alist_lookup_append]
    have hhk : alist_hasKey d k = false := by
      rw [alist_hasKey_eq_any]
      exact Bool.not_eq_true _ ▸ (by simpa using hmem)
    by_cases hk : k = key
    · subst hk
      rw [alist_lookup_none_of_not_hasKey d k hhk]
      simp [alist_lookup]
    · cases hl : alist_lookup d key with
      | some w => simp [hl, hk]
      | none => simp [hl, alist_lookup, hk]

theorem alist_lookup_update (d : Dict) (patch : Dict) (key : String) :
    alist_lookup (dict_update d patch) key =
      match lookup_last patch key with
      | some v => some v
      | none => alist_lookup d key := by
  induction patch generalizing d with
  | nil => simp [dict_update, lookup_last]
  | cons kv rest ih =>
    obtain ⟨k0, v0⟩ := kv
    have hstep : dict_update d ((k0, v0) :: rest) = dict_update (dict_set d k0 v0) rest := rfl
    rw [hstep, ih]
    cases hrest : lookup_last rest key with
    | some w => simp [lookup_last, hrest]
    | none =>
      simp only [lookup_last, hrest]
      rw [alist_lookup_set]
      by_cases hk : k0 = key <;> simp [hk]

/-!
Conversational agent record patching. `ConversationalPPTAgent.modify_slide`
(pptmaker_x.py lines 618-677) merges the service-produced patch into the
stored record with `old_content.update(changes)` and writes it back at the
same index; the untouched part of this embedding is the list of records
`self.slides_content`. Out-of-range indices leave the list unchanged (the
Python method returns early). The in-place PPTX re-render from the same
method is modeled separately with the renderer below.
-/

/-- Record-merge step of `ConversationalPPTAgent.modify_slide`: replace the
record at `slide_index` by itself updated with `changes`; out-of-range
indices are a no-op (the source returns `None` before touching state). -/
def modify_slide (slides : List Dict) (slide_index : Nat) (changes : Dict) : List Dict :=
  if slide_index < slides.length then
    slides.set slide_index (dict_update ((slides[slide_index]?).getD []) changes)
  else slides

/-- Record-merge loop of `ConversationalPPTAgent.apply_user_feedback`
(pptmaker_x.py lines 511-517): for each 1-based target slide number within
range, update that record with the action plan patch. -/
def apply_user_feedback (slides : List Dict) (target_slides : List Nat) (new_content : Dict) :
    List Dict :=
  target_slides.foldl
    (fun acc slide_num =>
      if 0 < slide_num ∧ slide_num ≤ acc.length then
        acc.set (slide_num - 1) (dict_update ((acc[slide_num - 1]?).getD []) new_content)
      else acc)
    slides

/-- C1. Patch merge is field-local: `modify_slide` keeps the record list
length, leaves every other record untouched, and inside the targeted record
every field named in the patch takes the patch value (last write wins for a
duplicated patch key) while every field absent from the patch keeps its
previous stored value. The single-target `apply_user_feedback` loop reduces
to the same merge. -/
theorem modify_slide_patch_field_local (slides : List Dict) (i : Nat) (patch : Dict)
    (h : i < slides.length) :
    (modify_slide slides i patch).length = slides.length
    ∧ (∀ j : Nat, j ≠ i → (modify_slide slides i patch)[j]? = slides[j]?)
    ∧ (∀ key : String,
        alist_lookup (((modify_slide slides i patch)[i]?).getD []) key =
          match lookup_last patch key with
          | some v => some v
          | none => alist_lookup ((slides[i]?).getD []) key)
    ∧ (∀ n : Nat, 0 < n →
        apply_user_feedback slides [n] patch = modify_slide slides (n - 1) patch) := by
  refine ⟨?_, ?_, ?_, ?_⟩
  · simp [modify_slide, h]
  · intro j hj
    simp only [modify_slide, if_pos h]
    exact List.getElem?_set_ne (fun hij => hj hij.symm)
  · intro key
    have hset : (modify_slide slides i patch)[i]? =
        some (dict_update ((slides[i]?).getD []) patch) := by
      simp only [modify_slide, if_pos h]
      exact List.getElem?_set_self (by simpa using h)
    rw [hset]
    simp only [Option.getD_some]
    exact alist_lookup_update _ _ _
  · intro n hn
    simp only [apply_user_feedback, List.foldl_cons, List.foldl_nil, modify_slide]
    have hiff : (0 < n ∧ n ≤ slides.length) ↔ (n - 1 < slides.length) := by omega
    by_cases hcond : n - 1 < slides.length
    · rw [if_pos (hiff.mpr hcond), if_pos hcond]
    · rw [if_neg (fun hc => hcond (hiff.mp hc)), if_neg hcond]

/-- C1 witness: patching `title` on a stored record that has `title` and
`bullets` changes `title` to the patch value and leaves `bullets` as stored. -/
theorem modify_slide_patch_field_local_witness :
    alist_lookup
        (((modify_slide [[("title", Value.vStr "Old"), ("bullets", Value.vList ["a", "b"])]] 0
            [("title", Value.vStr "X")])[0]?).getD [])
        "bullets" = some (Value.vList ["a", "b"])
    ∧ alist_lookup
        (((modify_slide [[("title", Value.vStr "Old"), ("bullets", Value.vList ["a", "b"])]] 0
            [("title", Value.vStr "X")])[0]?).getD [])
        "title" = some (Value.vStr "X") := by
  have h := modify_slide_patch_field_local
    [[("title", Value.vStr "Old"), ("bullets", Value.vList ["a", "b"])]] 0
    [("title", Value.vStr "X")] (by decide)
  refine ⟨?_, ?_⟩
  · have hb := h.2.2.1 "bullets"
    simpa using hb
  · have ht := h.2.2.1 "title"
    simpa using ht

/-!
Markdown-fence JSON extraction, shared by `ConversationalPPTAgent._extract_json`
(pptmaker_x.py lines 737-752) and `generate_slide_content`
(ppt_generator.py lines 129-144). Python string operations are embedded over
`List Char`: `sep in text` and `text.split(sep)` locate the leftmost
non-overlapping occurrences of `sep`; `text.split(sep)[1].split(sep2)[0]`
is the segment after the first occurrence of `sep` cut at the next
occurrence of `sep2` (for the fences used here, where `sep2` is a prefix of
`sep`, cutting at the next occurrence of the second separator gives the same
segment as Python splitting on all occurrences first).
-/

/-- Leftmost occurrence of `pat` in `s`: the part strictly before it and the
part strictly after it, or `none` when `pat` does not occur. -/
def splitFirst (pat : List Char) : List Char → Option (List Char × List Char)
  | [] => if pat.isEmpty then some ([], []) else none
  | c :: rest =>
    if pat.isPrefixOf (c :: rest) then some ([], (c :: rest).drop pat.length)
    else
      match splitFirst pat rest with
      | some (pre, post) => some (c :: pre, post)
      | none => none

/-- Python `pat in s`. -/
def hasSubstr (pat s : List Char) : Bool :=
  (splitFirst pat s).isSome

/-- Python `s.split(pat)[1]` restricted to its use sites (guarded by
`pat in s`); when `pat` is absent the whole string is returned. -/
def afterFirst (pat s : List Char) : List Char :=
  match splitFirst pat s with
  | some (_, post) => post
  | none => s

/-- Python `s.split(pat)[0]`: the part before the first occurrence of `pat`,
the whole string when `pat` is absent. -/
def beforeFirst (pat s : List Char) : List Char :=
  match splitFirst pat s with
  | some (pre, _) => pre
  | none => s

/-- Python `str.isspace` members stripped by `str.strip()`. -/
def pyIsSpace (c : Char) : Bool :=
  c = ' ' || c = '\t' || c = '\n' || c = '\r' || c = '\x0b' || c = '\x0c'

/-- Strip the given character class from both ends of a string. -/
def strip_chars (p : Char → Bool) (s : List Char) : List Char :=
  ((s.dropWhile p).reverse.dropWhile p).reverse

/-- Python `s.strip()`. -/
def pyStrip (s : List Char) : List Char :=
  strip_chars pyIsSpace s

/-- The backtick character, head of every markdown fence. -/
def backtick : Char := Char.ofNat 96

/-- The generic markdown fence. -/
def FENCE : List Char := "```".data

/-- The json-labeled markdown fence. -/
def JSON_FENCE : List Char := "```json".data

/-- Fence-unwrapping step shared verbatim by both extraction sites: prefer
the segment after the first json-labeled fence cut at the next fence, else
the segment between the first generic fence pair, else the raw text; the
fenced segments are whitespace-stripped, the raw text is not. -/
def extract_payload (text : List Char) : List Char :=
  if hasSubstr JSON_FENCE text then
    pyStrip (beforeFirst FENCE (afterFirst JSON_FENCE text))
  else if hasSubstr FENCE text then
    pyStrip (beforeFirst FENCE (afterFirst FENCE text))
  else text

theorem isPrefixOf_append_self (p b : List Char) : p.isPrefixOf (p ++ b) = true := by
  induction p with
  | nil => simp
  | cons c rest ih => simpa [List.isPrefixOf] using ih

theorem splitFirst_append_clean (pat a b : List Char)
    (hp : pat.head? = some backtick) (ha : ∀ c ∈ a, c ≠ backtick) :
    splitFirst pat (a ++ (pat ++ b)) = some (a, b) := by
  induction a with
  | nil =>
    cases pat with
    | nil => simp at hp
    | cons p0 prest =>
      simp only [List.nil_append]
      rw [List.cons_append]
      unfold splitFirst
      rw [← List.cons_append]
      rw [isPrefixOf_append_self]
      simp [List.drop_left]
  | cons c arest ih =>
    have hc : c ≠ backtick := ha c (by simp)
    cases pat with
    | nil => simp at hp
    | cons p0 prest =>
      have hp0 : p0 = backtick := by simpa using hp
      simp only [List.cons_append]
      unfold splitFirst
      have hnp : (p0 :: prest).isPrefixOf (c :: (arest ++ p0 :: (prest ++ b))) = false := by
        simp [List.isPrefixOf]
        intro hcp
        exact absurd (hp0 ▸ hcp.symm) hc
      rw [hnp]
      simp only [Bool.false_eq_true, if_false]
      have ih2 := ih (fun x hx => ha x (by simp [hx]))
      simp only [List.cons_append] at ih2
      rw [ih2]

theorem splitFirst_none_clean (pat s : List Char)
    (hp : pat.head? = some backtick) (hs : ∀ c ∈ s, c ≠ backtick) :
    splitFirst pat s = none := by
  induction s with
  | nil =>
    cases pat with
    | nil => simp at hp
    | cons p0 prest => simp [splitFirst]
  | cons c rest ih =>
    have hc : c ≠ backtick := hs c (by simp)
    cases pat with
    | nil => simp at hp
    | cons p0 prest =>
      have hp0 : p0 = backtick := by simpa using hp
      unfold splitFirst
      have hnp : (p0 :: prest).isPrefixOf (c :: rest) = false := by
        simp [List.isPrefixOf]
        intro hcp
        exact absurd (hp0 ▸ hcp.symm) hc
      rw [hnp]
      simp only [Bool.false_eq_true, if_false]
      rw [ih (fun x hx => hs x (by simp [hx]))]

theorem splitFirst_isSome_mono (pat1 pat2 s : List Char) (hpre : pat1 <+: pat2)
    (h : (splitFirst pat2 s).isSome = true) : (splitFirst pat1 s).isSome = true := by
  induction s with
  | nil =>
    unfold splitFirst at h ⊢
    by_cases h2 : pat2.isEmpty
    · have h1 : pat1.isEmpty := by
        cases pat2 with
        | nil => simpa [List.prefix_nil] using hpre
        | cons x xs => simp [List.isEmpty] at h2
      simp [h1]
    · simp [h2] at h
  | cons c rest ih =>
    unfold splitFirst at h ⊢
    by_cases hp2 : pat2.isPrefixOf (c :: rest) = true
    · have hp1 : pat1.isPrefixOf (c :: rest) = true := by
        rw [List.isPrefixOf_iff_prefix] at hp2 ⊢
        exact hpre.trans hp2
      simp [hp1]
    · rw [Bool.not_eq_true] at hp2
      rw [hp2] at h
      simp only [Bool.false_eq_true, if_false] at h
      by_cases hp1 : pat1.isPrefixOf (c :: rest) = true
      · simp [hp1]
      · rw [Bool.not_eq_true] at hp1
        rw [hp1]
        simp only [Bool.false_eq_true, if_false]
        cases hres : splitFirst pat2 rest with
        | none => rw [hres] at h; simp at h
        | some pr =>
          have := ih (by rw [hres]; rfl)
          cases hres1 : splitFirst pat1 rest with
          | none => rw [hres1] at this; simp at this
          | some pr1 => simp

/-- C3. Fence extraction: for a response whose first json-labeled fence is
followed by payload `b` and a closing fence (fence-free `a` before it,
fence-free `b` inside), the segment strictly between the json fence and the
next fence is taken (whitespace-trimmed, which the subsequent JSON parse
ignores); with no json-labeled fence the segment between the first generic
fence pair is taken; with no fence at all the raw text is used unchanged. -/
theorem fence_extraction_algorithm :
    (∀ a b c : List Char, (∀ x ∈ a, x ≠ backtick) → (∀ x ∈ b, x ≠ backtick) →
      extract_payload (a ++ (JSON_FENCE ++ (b ++ (FENCE ++ c)))) = pyStrip b)
    ∧ (∀ a b c : List Char, (∀ x ∈ a, x ≠ backtick) → (∀ x ∈ b, x ≠ backtick) →
      hasSubstr JSON_FENCE (a ++ (FENCE ++ (b ++ (FENCE ++ c)))) = false →
      extract_payload (a ++ (FENCE ++ (b ++ (FENCE ++ c)))) = pyStrip b)
    ∧ (∀ s : List Char, hasSubstr FENCE s = false → extract_payload s = s) := by
  have hjh : JSON_FENCE.head? = some backtick := by decide
  have hfh : FENCE.head? = some backtick := by decide
  refine ⟨?_, ?_, ?_⟩
  · intro a b c ha hb
    have hsplit := splitFirst_append_clean JSON_FENCE a (b ++ (FENCE ++ c)) hjh ha
    have hinner := splitFirst_append_clean FENCE b c hfh hb
    unfold extract_payload
    rw [show hasSubstr JSON_FENCE (a ++ (JSON_FENCE ++ (b ++ (FENCE ++ c)))) = true by
      unfold hasSubstr; rw [hsplit]; rfl]
    simp only [if_true]
    rw [show afterFirst JSON_FENCE (a ++ (JSON_FENCE ++ (b ++ (FENCE ++ c)))) = b ++ (FENCE ++ c) by
      unfold afterFirst; rw [hsplit]]
    rw [show beforeFirst FENCE (b ++ (FENCE ++ c)) = b by
      unfold beforeFirst; rw [hinner]]
  · intro a b c ha hb hnojson
    have hsplit := splitFirst_append_clean FENCE a (b ++ (FENCE ++ c)) hfh ha
    have hinner := splitFirst_append_clean FENCE b c hfh hb
    unfold extract_payload
    rw [hnojson]
    simp only [Bool.false_eq_true, if_false]
    rw [show hasSubstr FENCE (a ++ (FENCE ++ (b ++ (FENCE ++ c)))) = true by
      unfold hasSubstr; rw [hsplit]; rfl]
    simp only [if_true]
    rw [show afterFirst FENCE (a ++ (FENCE ++ (b ++ (FENCE ++ c)))) = b ++ (FENCE ++ c) by
      unfold afterFirst; rw [hsplit]]
    rw [show beforeFirst FENCE (b ++ (FENCE ++ c)) = b by
      unfold beforeFirst; rw [hinner]]
  · intro s hnof
    have hnoj : hasSubstr JSON_FENCE s = false := by
      cases hcase : hasSubstr JSON_FENCE s with
      | false => rfl
      | true =>
        have hmono := splitFirst_isSome_mono FENCE JSON_FENCE s (by decide)
          (by unfold hasSubstr at hcase; exact hcase)
        unfold hasSubstr at hnof
        rw [hmono] at hnof
        cases hnof
    unfold extract_payload
    rw [hnoj, hnof]
    simp

/-- C3 witness: a concrete json-fenced response, evaluated through the
extraction. -/
theorem fence_extraction_algorithm_witness :
    extract_payload
        ("Sure! ".data ++ (JSON_FENCE ++ ((" \x7b\"n\": 1\x7d ").data ++ (FENCE ++ " done".data))))
      = pyStrip (" \x7b\"n\": 1\x7d ").data :=
  fence_extraction_algorithm.1 "Sure! ".data (" \x7b\"n\": 1\x7d ").data " done".data
    (by decide) (by decide)

/-!
JSON parse error handling. `json.loads` is an external library call, passed
in as `parse`; it returns `some` of the parsed value exactly when the text
is valid JSON, `none` standing for a raised `json.JSONDecodeError`.
-/

/-- Python `ConversationalPPTAgent._extract_json` (pptmaker_x.py lines
737-752): empty text returns the empty dict; otherwise the fence-unwrapped
payload is parsed, and a `json.JSONDecodeError` is caught, printed, and
replaced by an empty dict when an opening brace occurs in the payload, else
an empty list — the caller always receives a plain value. `empty_obj` and
`empty_arr` stand for Python `{}` and `[]`. -/
def extract_json {α : Type} (parse : List Char → Option α) (empty_obj empty_arr : α)
    (text : List Char) : α :=
  if text = [] then empty_obj
  else
    let payload := extract_payload text
    match parse payload with
    | some v => v
    | none => if hasSubstr [Char.ofNat 123] payload then empty_obj else empty_arr

/-- Parse step of `generate_slide_content` (ppt_generator.py lines 129-144):
the fence-unwrapped payload is parsed; on `json.JSONDecodeError` the
extracted text is printed and the exception is re-raised, embedded as
`Except.error` carrying that text. -/
def parse_generated_content {α : Type} (parse : List Char → Option α)
    (generated_text : List Char) : Except (List Char) α :=
  let payload := extract_payload generated_text
  match parse payload with
  | some v => Except.ok v
  | none => Except.error payload

/-- C4 counterexample: the conversational agent absorbs a parse failure.
With a payload `json.loads` rejects (here the non-JSON text `not json`,
where `parse` answers `none` exactly as `json.loads` raises), `_extract_json`
returns the plain empty-list default instead of failing — the parse failure
is silently swallowed in this path, contradicting the claim that only the
image-fetch failure is absorbed. -/
theorem parse_failure_swallowed_counterexample :
    extract_json (fun _ => (none : Option Value)) (Value.vStr "\x7b\x7d") (Value.vStr "[]")
        "not json".data
      = Value.vStr "[]" := by
  decide

/-- C4 amended: `generate_slide_content` (ppt_generator.py) propagates a
parse failure as an error carrying the extracted text for diagnostics,
while `_extract_json` (pptmaker_x.py) absorbs the same failure into an
empty dict (when the payload contains an opening brace) or empty list and
generation continues. -/
theorem parse_failure_handling (α : Type) (parse : List Char → Option α)
    (empty_obj empty_arr : α) (text : List Char)
    (hfail : parse (extract_payload text) = none) :
    parse_generated_content parse text = Except.error (extract_payload text)
    ∧ (text ≠ [] →
        extract_json parse empty_obj empty_arr text =
          (if hasSubstr [Char.ofNat 123] (extract_payload text) then empty_obj else empty_arr)) := by
  constructor
  · show (match parse (extract_payload text) with
      | some v => Except.ok v
      | none => Except.error (extract_payload text)) = Except.error (extract_payload text)
    rw [hfail]
  · intro hne
    unfold extract_json
    rw [if_neg hne]
    show (match parse (extract_payload text) with
      | some v => v
      | none => if hasSubstr [Char.ofNat 123] (extract_payload text) then empty_obj
          else empty_arr) = _
    rw [hfail]

/-- C4 witness: both branches at the concrete failing payload `not json`. -/
theorem parse_failure_handling_witness :
    parse_generated_content (fun _ => (none : Option Value)) "not json".data
        = Except.error (extract_payload "not json".data)
    ∧ ("not json".data ≠ [] →
        extract_json (fun _ => (none : Option Value)) (Value.vStr "\x7b\x7d") (Value.vStr "[]")
            "not json".data =
          (if hasSubstr [Char.ofNat 123] (extract_payload "not json".data) then
            Value.vStr "\x7b\x7d" else Value.vStr "[]")) :=
  parse_failure_handling Value (fun _ => none) (Value.vStr "\x7b\x7d") (Value.vStr "[]")
    "not json".data (by decide)

/-!
Inline bold markup. `create_presentation_from_template` (ppt_generator.py
lines 633-651) tokenizes each bullet with
`re.split` on the lazy pattern of a double-star pair around a captured
group, emitting a run per nonempty part, bold for the captured (odd-index)
parts. The regex engine semantics embedded here: a match is the leftmost
position holding a double-star marker followed, before any newline (the dot
does not match newlines), by the earliest closing double-star; unmatched
markers stay literal text.
-/

/-- The star character. -/
def star : Char := Char.ofNat 42

/-- Earliest closing double-star marker: the captured text before it (which
cannot contain a newline) and the suffix after it. -/
def findClose : List Char → Option (List Char × List Char)
  | [] => none
  | c :: rest =>
    if c = star ∧ rest.head? = some star then some ([], rest.drop 1)
    else if c = '\n' then none
    else
      match findClose rest with
      | some (cap, suf) => some (c :: cap, suf)
      | none => none

/-- Leftmost match of the lazy bold pattern: text before the opening marker,
captured text, and suffix after the closing marker. An opening marker with
no closing marker before a newline is skipped (the engine advances). -/
def findMatch : List Char → Option (List Char × List Char × List Char)
  | [] => none
  | c :: rest =>
    let fallback :=
      match findMatch rest with
      | some (pre, cap, suf) => some (c :: pre, cap, suf)
      | none => none
    if c = star ∧ rest.head? = some star then
      match findClose (rest.drop 1) with
      | some (cap, suf) => some ([], cap, suf)
      | none => fallback
    else fallback

/-- Fueled tokenization loop: each iteration peels one bold match, keeping
the nonempty plain part before it and the nonempty captured part, exactly
the nonempty-part filter of the Python loop over `re.split` output. The
fuel only bounds the iteration count; `boldRuns` supplies enough. -/
def boldRunsAux : Nat → List Char → List (List Char × Bool)
  | _, [] => []
  | 0, c :: rest => [(c :: rest, false)]
  | Nat.succ fuel, c :: rest =>
    match findMatch (c :: rest) with
    | none => [(c :: rest, false)]
    | some (pre, cap, suf) =>
      (if pre = [] then [] else [(pre, false)]) ++
      (if cap = [] then [] else [(cap, true)]) ++
      boldRunsAux fuel suf

/-- Bold-span tokenization of one bullet: the runs added to the paragraph,
each tagged with its bold flag. -/
def boldRuns (s : List Char) : List (List Char × Bool) :=
  boldRunsAux s.length s

theorem boldRunsAux_ne_nil (fuel : Nat) (s : List Char) (r : List Char × Bool)
    (h : r ∈ boldRunsAux fuel s) : r.1 ≠ [] := by
  induction fuel generalizing s with
  | zero =>
    cases s with
    | nil => simp [boldRunsAux] at h
    | cons c rest =>
      simp [boldRunsAux] at h
      simp [h]
  | succ fuel ih =>
    cases s with
    | nil => simp [boldRunsAux] at h
    | cons c rest =>
      unfold boldRunsAux at h
      cases hm : findMatch (c :: rest) with
      | none =>
        rw [hm] at h
        simp at h
        simp [h]
      | some pcs =>
        obtain ⟨pre, cap, suf⟩ := pcs
        rw [hm] at h
        simp only [List.mem_append] at h
        rcases h with (h | h) | h
        · by_cases hpre : pre = []
          · simp [hpre] at h
          · simp [hpre] at h
            simp [h, hpre]
        · by_cases hcap : cap = []
          · simp [hcap] at h
          · simp [hcap] at h
            simp [h, hcap]
        · exact ih suf h

/-- C6. Bold-span tokenization: the nonempty parts of the marker-pair split
alternate as emitted, with the captured texts emphasized; on the concrete
input with two marker pairs the runs are bold `A`, plain space-and-space,
bold `B`; an unmatched trailing marker stays literal inside the plain tail
run with no emphasis; and no empty segment is ever emitted. -/
theorem bold_span_tokenization :
    boldRuns "**A** and **B**".data =
      [("A".data, true), (" and ".data, false), ("B".data, true)]
    ∧ boldRuns "**A** tail**".data = [("A".data, true), (" tail**".data, false)]
    ∧ ∀ (s : List Char) (r : List Char × Bool), r ∈ boldRuns s → r.1 ≠ [] := by
  refine ⟨by decide, by decide, ?_⟩
  intro s r h
  exact boldRunsAux_ne_nil s.length s r h

/-- C6 witness: the bold run for `A` produced from the first example is a
nonempty segment. -/
theorem bold_span_tokenization_witness :
    ("A".data, true) ∈ boldRuns "**A** and **B**".data ∧ ("A".data ≠ ([] : List Char)) :=
  ⟨by decide, bold_span_tokenization.2.2 "**A** and **B**".data ("A".data, true) (by decide)⟩

/-!
Template renderer text filling. `TemplatePPTGenerator._populate_slide_content`
(pptmaker_x.py lines 127-239) walks the slide's text shapes sorted top to
bottom and rewrites them from the content dict: a shape is embedded as its
list of paragraph texts, a slide as the top-sorted list of its text shapes.
The bullet branch caps at the first 6 bullets. The ppt_generator.py content
slide instead adds one paragraph per point of `slide_data['content']`
without any cap (lines 619-651).
-/

/-- Python `content['k']` read as a string (the fields written by
`p.text = content[k]` are strings in every reachable record). -/
def dict_get_str (c : Dict) (key : String) : String :=
  match alist_lookup c key with
  | some (Value.vStr s) => s
  | _ => ""

/-- Python `content['k']` read as a list of strings (the bullets field). -/
def dict_get_list (c : Dict) (key : String) : List String :=
  match alist_lookup c key with
  | some (Value.vList l) => l
  | _ => []

/-- First block of `_populate_slide_content`: the topmost shape receives the
title when present, advancing the shape cursor. -/
def populate_step1 (shapes : List (List String)) (c : Dict) : List (List String) × Nat :=
  if 0 < shapes.length ∧ alist_hasKey c "title" = true then
    (shapes.set 0 [dict_get_str c "title"], 1)
  else (shapes, 0)

/-- Second block: the next shape receives, in priority order, the subtitle,
else the bullets capped at 6, else the text, else the stat. -/
def populate_step2 (st : List (List String) × Nat) (c : Dict) : List (List String) × Nat :=
  let (shapes, idx) := st
  if idx < shapes.length then
    if alist_hasKey c "subtitle" = true then
      (shapes.set idx [dict_get_str c "subtitle"], idx + 1)
    else if alist_hasKey c "bullets" = true then
      (shapes.set idx ((dict_get_list c "bullets").take 6), idx + 1)
    else if alist_hasKey c "text" = true then
      (shapes.set idx [dict_get_str c "text"], idx + 1)
    else if alist_hasKey c "stat" = true then
      (shapes.set idx [dict_get_str c "stat"], idx + 1)
    else (shapes, idx)
  else (shapes, idx)

/-- Third block: a further shape receives the description (only next to a
stat) or the context; when bullets were used without a subtitle the block
passes without writing. -/
def populate_step3 (st : List (List String) × Nat) (c : Dict) : List (List String) × Nat :=
  let (shapes, idx) := st
  if idx < shapes.length then
    if alist_hasKey c "bullets" = true ∧ alist_hasKey c "subtitle" = false then
      (shapes, idx)
    else if alist_hasKey c "description" = true ∧ alist_hasKey c "stat" = true then
      (shapes.set idx [dict_get_str c "description"], idx + 1)
    else if alist_hasKey c "context" = true then
      (shapes.set idx [dict_get_str c "context"], idx + 1)
    else (shapes, idx)
  else (shapes, idx)

/-- `TemplatePPTGenerator._populate_slide_content`: rewrite the top-sorted
text shapes of one slide from the content dict. -/
def populate_slide_content (shapes : List (List String)) (c : Dict) : List (List String) :=
  (populate_step3 (populate_step2 (populate_step1 shapes c) c) c).1

/-- Content-slide paragraph loop of `create_presentation_from_template`
(ppt_generator.py lines 619-651): one paragraph per point, each tokenized
into bold/plain runs, with no cap on the number of points. -/
def render_content_paragraphs (points : List String) : List (List (List Char × Bool)) :=
  points.map (fun p => boldRuns p.data)

/-- C5 counterexample: a content slide with 9 bullet points rendered by
`create_presentation_from_template` produces 9 paragraphs, not 6 — this
renderer has no bullet cap, so the claimed universal 6-bullet truncation
fails on the cited ppt_generator.py path. -/
theorem bullet_truncation_counterexample :
    ¬ ((render_content_paragraphs
        ["b1", "b2", "b3", "b4", "b5", "b6", "b7", "b8", "b9"]).length = 6) := by
  decide

/-- C5 amended: in the template-agent renderer, a record carrying bullets
and no subtitle whose target shape exists gets exactly the first 6 bullets
in list order (one paragraph each, the remaining entries discarded), while
the ppt_generator renderer emits one paragraph per bullet with no cap. -/
theorem bullet_truncation (shapes : List (List String)) (c : Dict)
    (hb : alist_hasKey c "bullets" = true)
    (hs : alist_hasKey c "subtitle" = false)
    (hlen : (if alist_hasKey c "title" = true then 1 else 0) < shapes.length) :
    (populate_slide_content shapes c)[(if alist_hasKey c "title" = true then 1 else 0)]?
        = some ((dict_get_list c "bullets").take 6)
    ∧ (6 < (dict_get_list c "bullets").length → ((dict_get_list c "bullets").take 6).length = 6)
    ∧ (∀ points : List String, (render_content_paragraphs points).length = points.length) := by
  refine ⟨?_, ?_, ?_⟩
  · have hsne : ¬ (alist_hasKey c "subtitle" = true) := by simp [hs]
    by_cases ht : alist_hasKey c "title" = true
    · rw [ht] at hlen
      simp only [if_true] at hlen
      have h0 : 0 < shapes.length := by omega
      have hstep1 : populate_step1 shapes c = (shapes.set 0 [dict_get_str c "title"], 1) := by
        unfold populate_step1
        rw [if_pos ⟨h0, ht⟩]
      have hlen1 : 1 < (shapes.set 0 [dict_get_str c "title"]).length := by
        rw [List.length_set]; exact hlen
      have hstep2 : populate_step2 (shapes.set 0 [dict_get_str c "title"], 1) c =
          ((shapes.set 0 [dict_get_str c "title"]).set 1 ((dict_get_list c "bullets").take 6), 2) := by
        unfold populate_step2
        simp only [hlen1, if_true, hsne, hb, if_false]
        simp [hs]
      have hstep3 : populate_step3
          ((shapes.set 0 [dict_get_str c "title"]).set 1 ((dict_get_list c "bullets").take 6), 2) c
          = ((shapes.set 0 [dict_get_str c "title"]).set 1 ((dict_get_list c "bullets").take 6), 2) := by
        unfold populate_step3
        by_cases h2 : 2 < ((shapes.set 0 [dict_get_str c "title"]).set 1
            ((dict_get_list c "bullets").take 6)).length
        · simp only [h2, if_true]
          rw [if_pos ⟨hb, hs⟩]
        · simp only [h2]
          simp
      unfold populate_slide_content
      rw [hstep1, hstep2, hstep3, ht]
      simp only [if_true]
      exact List.getElem?_set_self (by simpa using hlen1)
    · rw [if_neg ht] at hlen ⊢
      have hstep1 : populate_step1 shapes c = (shapes, 0) := by
        unfold populate_step1
        rw [if_neg (fun hpair => ht hpair.2)]
      have hstep2 : populate_step2 (shapes, 0) c =
          (shapes.set 0 ((dict_get_list c "bullets").take 6), 1) := by
        unfold populate_step2
        simp only [hlen, if_true, hb, if_false]
        simp [hs]
      have hstep3 : populate_step3 (shapes.set 0 ((dict_get_list c "bullets").take 6), 1) c
          = (shapes.set 0 ((dict_get_list c "bullets").take 6), 1) := by
        unfold populate_step3
        by_cases h2 : 1 < (shapes.set 0 ((dict_get_list c "bullets").take 6)).length
        · simp only [h2, if_true]
          rw [if_pos ⟨hb, hs⟩]
        · simp only [h2]
          simp
      unfold populate_slide_content
      rw [hstep1, hstep2, hstep3]
      exact List.getElem?_set_self (by simpa using hlen)
  · intro hgt
    rw [List.length_take]
    omega
  · intro points
    unfold render_content_paragraphs
    rw [List.length_map]

/-- C5 witness: a two-shape slide and a record with a title and 9 bullets;
the second shape receives exactly the first 6 bullets. -/
theorem bullet_truncation_witness :
    (populate_slide_content [["h"], ["b"]]
        [("title", Value.vStr "T"),
         ("bullets", Value.vList ["1", "2", "3", "4", "5", "6", "7", "8", "9"])])[1]?
      = some ["1", "2", "3", "4", "5", "6"] := by
  have h := bullet_truncation [["h"], ["b"]]
    [("title", Value.vStr "T"),
     ("bullets", Value.vList ["1", "2", "3", "4", "5", "6", "7", "8", "9"])]
    (by decide) (by decide) (by decide)
  simpa using h.1

/-!
Layout resolution and the slide build loop.
`TemplatePPTGenerator.LAYOUT_MAP` (pptmaker_x.py lines 45-61) maps layout
keys to template slide indices;
`ConversationalPPTAgent._map_slide_type_to_layout` (lines 717-735) maps an
outline slide type to a layout key with fallback `content`;
`TemplatePPTGenerator.copy_slide` (lines 94-120) appends one populated copy
of the template slide at that index to the output presentation, or prints a
warning and appends nothing when the index is beyond the loaded template
(the blank-presentation fallback of `__init__`, lines 84-87, has zero
template slides). A template presentation is embedded as the list of its
slides, each slide as its top-sorted text shapes.
-/

/-- `TemplatePPTGenerator.LAYOUT_MAP`. -/
def LAYOUT_MAP : List (String × Nat) :=
  [("title", 0), ("section", 1), ("content", 2), ("features", 3), ("data", 4),
   ("quote", 5), ("split", 6), ("timeline", 7), ("stat", 8), ("hero_image", 9),
   ("comparison", 10), ("team", 11), ("bullets", 12), ("cta", 13), ("dashboard", 14)]

/-- Mapping dict inside `_map_slide_type_to_layout`. -/
def SLIDE_TYPE_MAPPING : List (String × String) :=
  [("title", "title"), ("content", "content"), ("bullets", "bullets"),
   ("stat", "stat"), ("statistics", "stat"), ("data", "data"),
   ("comparison", "comparison"), ("timeline", "timeline"), ("quote", "quote"),
   ("team", "team"), ("features", "features"), ("cta", "cta"),
   ("summary", "bullets"), ("conclusion", "bullets")]

/-- `ConversationalPPTAgent._map_slide_type_to_layout`:
`mapping.get(slide_type, 'content')`. -/
def map_slide_type_to_layout (slide_type : String) : String :=
  (alist_lookup SLIDE_TYPE_MAPPING slide_type).getD "content"

/-- `slide_content.get('slide_type', 'content')` as read by
`build_single_slide` and `build_presentation`. -/
def slide_type_of (content : Dict) : String :=
  match alist_lookup content "slide_type" with
  | some (Value.vStr s) => s
  | _ => "content"

/-- Template slide index resolution shared by `build_single_slide` (lines
603-607) and `build_presentation` (lines 699-703):
`LAYOUT_MAP.get(layout_key, 2)`. -/
def template_idx_of (content : Dict) : Nat :=
  (alist_lookup LAYOUT_MAP (map_slide_type_to_layout (slide_type_of content))).getD 2

/-- One output slide: which template slide it copied and its text shapes
after population. -/
structure RenderedSlide where
  template_idx : Nat
  shapes : List (List String)
deriving DecidableEq, Repr

/-- `TemplatePPTGenerator.copy_slide`: append one populated copy of template
slide `template_slide_idx`, or append nothing when the index is out of
range of the loaded template. -/
def copy_slide (template_slides : List (List (List String))) (out : List RenderedSlide)
    (template_slide_idx : Nat) (content : Dict) : List RenderedSlide :=
  match template_slides[template_slide_idx]? with
  | some tslide => out ++ [⟨template_slide_idx, populate_slide_content tslide content⟩]
  | none => out

/-- One iteration of the `build_presentation` loop (also the body of
`build_single_slide`): resolve the layout and copy the template slide. -/
def build_slide_step (template_slides : List (List (List String))) (out : List RenderedSlide)
    (content : Dict) : List RenderedSlide :=
  copy_slide template_slides out (template_idx_of content) content

/-- `ConversationalPPTAgent.build_presentation`: fold the build step over
the accumulated records starting from the fresh empty output document. -/
def build_presentation (template_slides : List (List (List String))) (records : List Dict) :
    List RenderedSlide :=
  records.foldl (build_slide_step template_slides) []

/-- The slide a build step produces for a record under a given template. -/
def render_slide (template_slides : List (List (List String))) (content : Dict) : RenderedSlide :=
  ⟨template_idx_of content,
   populate_slide_content ((template_slides[template_idx_of content]?).getD []) content⟩

/-- C8. Layout-kind resolution is total: an unrecognized slide type (any
string outside the mapping) falls back to `content`, every recognized slide
type resolves to its mapped layout key, and every resolved key is a valid
`LAYOUT_MAP` key (so the subsequent template index lookup never needs its
own fallback). -/
theorem layout_resolution_total :
    (∀ t : String, alist_hasKey SLIDE_TYPE_MAPPING t = false → map_slide_type_to_layout t = "content")
    ∧ (∀ t v : String, alist_lookup SLIDE_TYPE_MAPPING t = some v → map_slide_type_to_layout t = v)
    ∧ (∀ t : String, alist_hasKey LAYOUT_MAP (map_slide_type_to_layout t) = true) := by
  refine ⟨?_, ?_, ?_⟩
  · intro t h
    unfold map_slide_type_to_layout
    rw [alist_lookup_none_of_not_hasKey _ _ h]
    rfl
  · intro t v h
    unfold map_slide_type_to_layout
    rw [h]
    rfl
  · intro t
    unfold map_slide_type_to_layout
    cases hl : alist_lookup SLIDE_TYPE_MAPPING t with
    | none => decide
    | some v =>
      have hv : v ∈ SLIDE_TYPE_MAPPING.map Prod.snd := alist_lookup_mem _ _ _ hl
      have hall : ∀ w ∈ SLIDE_TYPE_MAPPING.map Prod.snd, alist_hasKey LAYOUT_MAP w = true := by
        decide
      simpa using hall v hv

/-- C8 witness: an arbitrary unknown slide type resolves to `content`,
a recognized one (`conclusion`) to its mapped key `bullets`. -/
theorem layout_resolution_total_witness :
    map_slide_type_to_layout "weird_type" = "content"
    ∧ map_slide_type_to_layout "conclusion" = "bullets" :=
  ⟨layout_resolution_total.1 "weird_type" (by decide),
   layout_resolution_total.2.1 "conclusion" "bullets" (by decide)⟩

/-- C2 counterexample: with the blank-presentation fallback (no template
file found, zero template slides — pptmaker_x.py lines 84-87), one build
step for an ordinary content record appends no slide at all: the record is
silently missing from the output, refuting that every build step appends
exactly one slide. -/
theorem build_step_appends_counterexample :
    ¬ ((build_slide_step [] [] [("slide_type", Value.vStr "content")]).length = 1) := by
  decide

/-- C2 amended: every resolvable template index is below 15, and whenever
the loaded template has at least 15 slides (every shipped template does),
building appends exactly one fully populated slide per record, in record
order — the output is exactly the map of the renderer over the records. -/
theorem build_appends_one_slide_per_record :
    (∀ content : Dict, template_idx_of content < 15)
    ∧ (∀ (template_slides : List (List (List String))) (records : List Dict),
        15 ≤ template_slides.length →
        build_presentation template_slides records = records.map (render_slide template_slides)) := by
  constructor
  · intro content
    unfold template_idx_of
    cases hl : alist_lookup LAYOUT_MAP (map_slide_type_to_layout (slide_type_of content)) with
    | none => decide
    | some v =>
      have hv : v ∈ LAYOUT_MAP.map Prod.snd := alist_lookup_mem _ _ _ hl
      have hall : ∀ w ∈ LAYOUT_MAP.map Prod.snd, w < 15 := by decide
      simpa using hall v hv
  · intro template_slides records hlen
    have hstep : ∀ (out : List RenderedSlide) (content : Dict),
        build_slide_step template_slides out content
          = out ++ [render_slide template_slides content] := by
      intro out content
      have hidx : template_idx_of content < template_slides.length := by
        have h15 : template_idx_of content < 15 := by
          unfold template_idx_of
          cases hl : alist_lookup LAYOUT_MAP (map_slide_type_to_layout (slide_type_of content)) with
          | none => decide
          | some v =>
            have hv : v ∈ LAYOUT_MAP.map Prod.snd := alist_lookup_mem _ _ _ hl
            have hall : ∀ w ∈ LAYOUT_MAP.map Prod.snd, w < 15 := by decide
            simpa using hall v hv
        omega
      have hget : template_slides[template_idx_of content]?
          = some (template_slides[template_idx_of content]) := List.getElem?_eq_getElem hidx
      unfold build_slide_step copy_slide render_slide
      rw [hget]
      simp
    have hfold : ∀ (rs : List Dict) (out : List RenderedSlide),
        rs.foldl (build_slide_step template_slides) out
          = out ++ rs.map (render_slide template_slides) := by
      intro rs
      induction rs with
      | nil => intro out; simp
      | cons r rest ih =>
        intro out
        rw [List.foldl_cons, hstep out r, ih]
        simp
    unfold build_presentation
    rw [hfold records []]
    simp

/-- C2 witness: a 15-slide template and one title record build to exactly
the one rendered slide. -/
theorem build_appends_one_slide_per_record_witness :
    build_presentation (List.replicate 15 [["h"], ["s"]])
        [[("slide_type", Value.vStr "title"), ("title", Value.vStr "X")]]
      = [[("slide_type", Value.vStr "title"), ("title", Value.vStr "X")]].map
          (render_slide (List.replicate 15 [["h"], ["s"]])) :=
  build_appends_one_slide_per_record.2 (List.replicate 15 [["h"], ["s"]])
    [[("slide_type", Value.vStr "title"), ("title", Value.vStr "X")]] (by decide)

/-!
Theme selection. `TemplatePPTGenerator.THEMES` (pptmaker_x.py lines 31-42)
is the fixed theme catalog (key to template file path);
`TemplatePPTGenerator.__init__` (line 66) looks the key up with
`THEMES.get(theme_key, THEMES['modern_blue'])`;
`ConversationalPPTAgent.select_theme` (lines 324-380) takes the user
preference if it is a catalog key, else the AI suggestion stripped of
whitespace and quotes if that is a catalog key, else `modern_blue`.
`create_presentation_from_template` (ppt_generator.py lines 160-167)
instead derives `templates/<name>.pptx` and raises `FileNotFoundError` when
that file does not exist; the filesystem is passed in as the list of
existing template paths.
-/

/-- `TemplatePPTGenerator.THEMES`, key to template file. -/
def THEMES : List (String × String) :=
  [("modern_blue", "templates/modern_blue_clean.pptx"),
   ("elegant_purple", "templates/elegant_purple_clean.pptx"),
   ("corporate_green", "templates/corporate_green_clean.pptx"),
   ("vibrant_orange", "templates/vibrant_orange_clean.pptx"),
   ("dark_professional", "templates/dark_professional_clean.pptx"),
   ("minimal_gray", "templates/minimal_gray_clean.pptx"),
   ("ocean_teal", "templates/ocean_teal_clean.pptx"),
   ("sunset_red", "templates/sunset_red_clean.pptx"),
   ("royal_indigo", "templates/royal_indigo_clean.pptx"),
   ("forest_brown", "templates/forest_brown_clean.pptx")]

/-- Theme dict lookup of `TemplatePPTGenerator.__init__`:
`self.THEMES.get(theme_key, self.THEMES['modern_blue'])`, read down to the
selected template file. -/
def init_theme_file (theme_key : String) : String :=
  (alist_lookup THEMES theme_key).getD "templates/modern_blue_clean.pptx"

/-- AI branch of `select_theme`: the suggestion is stripped of surrounding
whitespace and double quotes, then checked against the catalog with
fallback `modern_blue`; with no outline the default is taken directly. -/
def select_theme_ai (has_outline : Bool) (ai_response : List Char) : String :=
  if ¬ has_outline then "modern_blue"
  else if alist_hasKey THEMES (String.mk (strip_chars (fun c => c = '"') (pyStrip ai_response)))
      = true then
    String.mk (strip_chars (fun c => c = '"') (pyStrip ai_response))
  else "modern_blue"

/-- `ConversationalPPTAgent.select_theme`: a truthy user preference that is
a catalog key wins, otherwise the AI branch decides. -/
def select_theme (user_preference : Option String) (has_outline : Bool)
    (ai_response : List Char) : String :=
  match user_preference with
  | some p =>
    if p ≠ "" ∧ alist_hasKey THEMES p = true then p
    else select_theme_ai has_outline ai_response
  | none => select_theme_ai has_outline ai_response

/-- Template load of `create_presentation_from_template` (ppt_generator.py
lines 160-167): derive the path and raise `FileNotFoundError` when it is
not among the existing files. -/
def load_template (existing_files : List String) (template_name : String) :
    Except String String :=
  let template_path := "templates/" ++ template_name ++ ".pptx"
  if template_path ∈ existing_files then Except.ok template_path
  else Except.error ("Template not found: " ++ template_path)

/-- Template files shipped for the `create_presentation_from_template`
catalog (the eight template names its color schemes recognize). -/
def PPTGEN_TEMPLATE_FILES : List String :=
  ["templates/ocean_breeze.pptx", "templates/sunset_glow.pptx",
   "templates/forest_fresh.pptx", "templates/royal_purple.pptx",
   "templates/corporate_slate.pptx", "templates/modern_blue.pptx",
   "templates/elegant_dark.pptx", "templates/vibrant_education.pptx"]

/-- C7 counterexample: a theme key outside the catalog makes
`create_presentation_from_template` raise `FileNotFoundError` instead of
substituting a default — an unknown theme key does abort on this cited
path, refuting that it never raises at the system boundary. -/
theorem unknown_theme_raises_counterexample :
    load_template PPTGEN_TEMPLATE_FILES "neon_glow"
      = Except.error "Template not found: templates/neon_glow.pptx" := by
  rfl

/-- C7 amended: in the conversational agent an unknown theme key always
falls back (the constructor substitutes the modern_blue template file, and
`select_theme` only ever returns catalog keys, for every preference and
every AI suggestion), while `create_presentation_from_template` raises a
`FileNotFoundError` for any template name whose file does not exist. -/
theorem unknown_theme_fallback (theme_key : String)
    (hunknown : alist_hasKey THEMES theme_key = false) :
    init_theme_file theme_key = "templates/modern_blue_clean.pptx"
    ∧ (∀ (pref : Option String) (ho : Bool) (ai : List Char),
        alist_hasKey THEMES (select_theme pref ho ai) = true)
    ∧ (∀ (existing : List String) (name : String),
        ("templates/" ++ name ++ ".pptx") ∉ existing →
        load_template existing name
          = Except.error ("Template not found: " ++ ("templates/" ++ name ++ ".pptx"))) := by
  refine ⟨?_, ?_, ?_⟩
  · unfold init_theme_file
    rw [alist_lookup_none_of_not_hasKey _ _ hunknown]
    rfl
  · have hai : ∀ (ho : Bool) (ai : List Char),
        alist_hasKey THEMES (select_theme_ai ho ai) = true := by
      intro ho ai
      unfold select_theme_ai
      cases ho with
      | false =>
        rw [if_pos (show ¬ (false = true) by simp)]
        decide
      | true =>
        rw [if_neg (show ¬ ¬ (true = true) by simp)]
        by_cases hk : alist_hasKey THEMES
            (String.mk (strip_chars (fun c => c = '"') (pyStrip ai))) = true
        · rw [if_pos hk]
          exact hk
        · rw [if_neg hk]
          decide
    intro pref ho ai
    cases pref with
    | none => exact hai ho ai
    | some p =>
      have hred : select_theme (some p) ho ai
          = if p ≠ "" ∧ alist_hasKey THEMES p = true then p else select_theme_ai ho ai := rfl
      rw [hred]
      by_cases hp : p ≠ "" ∧ alist_hasKey THEMES p = true
      · rw [if_pos hp]
        exact hp.2
      · rw [if_neg hp]
        exact hai ho ai
  · intro existing name hnot
    unfold load_template
    rw [if_neg hnot]

/-- C7 witness: the unknown key `neon_glow` falls back in the agent
constructor, theme selection yields a catalog key for it, and its template
load on the shipped files raises. -/
theorem unknown_theme_fallback_witness :
    init_theme_file "neon_glow" = "templates/modern_blue_clean.pptx"
    ∧ alist_hasKey THEMES (select_theme (some "neon_glow") true "neon_glow".data) = true
    ∧ load_template PPTGEN_TEMPLATE_FILES "neon_glow"
        = Except.error ("Template not found: " ++ ("templates/" ++ "neon_glow" ++ ".pptx")) := by
  have h := unknown_theme_fallback "neon_glow" (by decide)
  exact ⟨h.1, h.2.1 (some "neon_glow") true "neon_glow".data,
    h.2.2 PPTGEN_TEMPLATE_FILES "neon_glow" (by decide)⟩

/-!
Outline generation. `ConversationalPPTAgent.generate_outline` (pptmaker_x.py
lines 265-322) formats the request prompt with the topic and slide count,
sends it to the chat service, fence-extracts and parses the response, stores
and returns the parsed outline as-is. The service response and the
`json.loads` oracle are parameters; the typed outline mirrors the JSON shape
the prompt requests.
-/

/-- One outline entry as requested by the prompt. -/
structure OutlineSlide where
  number : Int
  type : String
  topic : String
  description : String
deriving DecidableEq, Repr

/-- The outline JSON object shape. -/
structure Outline where
  presentation_title : String
  slides : List OutlineSlide
deriving DecidableEq, Repr

/-- Prompt text before the interpolated topic. -/
def OUTLINE_PROMPT_A : String := "Create a presentation outline for: \""

/-- Prompt text between the topic and the interpolated slide count. -/
def OUTLINE_PROMPT_B : String := "\"\n\nRequirements:\n- Total slides: "

/-- Prompt text after the slide count. -/
def OUTLINE_PROMPT_C : String :=
  "\n- First slide: Title slide\n- Last slide: Summary/Conclusion\n- Middle slides: Core content covering the topic comprehensively\n\nFor each slide, specify:\n1. Slide number\n2. Slide type (title/content/stat/comparison/etc)\n3. Main topic/title\n4. Brief description of what it covers\n\nRespond with JSON:\n\x7b\n    \"presentation_title\": \"...\",\n    \"slides\": [\n        \x7b\"number\": 1, \"type\": \"title\", \"topic\": \"...\", \"description\": \"...\"\x7d,\n        \x7b\"number\": 2, \"type\": \"content\", \"topic\": \"...\", \"description\": \"...\"\x7d,\n        ...\n    ]\n\x7d"

/-- The f-string prompt of `generate_outline`. -/
def build_outline_prompt (topic : String) (num_slides : Nat) : List Char :=
  OUTLINE_PROMPT_A.data ++ (topic.data ++ (OUTLINE_PROMPT_B.data
    ++ ((toString num_slides).data ++ OUTLINE_PROMPT_C.data)))

/-- `generate_outline`: the fence-extracted response parsed and returned
verbatim (the `_extract_json` parse-failure default collapses to the empty
outline); `topic` and `num_slides` only shape the prompt sent to the
service whose answer is `service_response`. -/
def generate_outline (parse : List Char → Option Outline) (topic : String) (num_slides : Nat)
    (service_response : List Char) : Outline :=
  match parse (extract_payload service_response) with
  | some o => o
  | none => ⟨"", []⟩

theorem splitFirst_isSome_of_isPrefixOf (pat s : List Char) (h : pat.isPrefixOf s = true) :
    (splitFirst pat s).isSome = true := by
  cases s with
  | nil =>
    cases pat with
    | nil => simp [splitFirst]
    | cons p0 pr => simp at h
  | cons c rest =>
    simp only [splitFirst]
    simp [h]

theorem splitFirst_isSome_cons (pat : List Char) (c : Char) (rest : List Char)
    (h : (splitFirst pat rest).isSome = true) : (splitFirst pat (c :: rest)).isSome = true := by
  simp only [splitFirst]
  by_cases hpre : pat.isPrefixOf (c :: rest) = true
  · simp [hpre]
  · rw [Bool.not_eq_true] at hpre
    rw [hpre]
    simp only [Bool.false_eq_true, if_false]
    cases hres : splitFirst pat rest with
    | none => rw [hres] at h; simp at h
    | some pr => simp

theorem hasSubstr_sandwich (pat a b : List Char) :
    hasSubstr pat (a ++ (pat ++ b)) = true := by
  unfold hasSubstr
  induction a with
  | nil =>
    rw [List.nil_append]
    exact splitFirst_isSome_of_isPrefixOf pat (pat ++ b) (isPrefixOf_append_self pat b)
  | cons c arest ih =>
    rw [List.cons_append]
    exact splitFirst_isSome_cons pat c _ ih

set_option maxRecDepth 8192 in
/-- C9 counterexample: the outline the service returns is taken verbatim —
for the request `(topic = Photosynthesis, slide_count = 5)` a well-formed
JSON response containing only 2 slide entries (parsed by the `json.loads`
oracle exactly as Python would) yields an outline with 2 entries, not the
requested 5: `generate_outline` does not enforce the count. -/
theorem generate_outline_count_counterexample :
    ¬ ((generate_outline
        (fun s =>
          if s = "\x7b\"presentation_title\": \"T\", \"slides\": [\x7b\"number\": 1, \"type\": \"title\", \"topic\": \"Intro\", \"description\": \"d\"\x7d, \x7b\"number\": 2, \"type\": \"content\", \"topic\": \"Body\", \"description\": \"d\"\x7d]\x7d".data
          then some ⟨"T", [⟨1, "title", "Intro", "d"⟩, ⟨2, "content", "Body", "d"⟩]⟩
          else none)
        "Photosynthesis" 5
        "\x7b\"presentation_title\": \"T\", \"slides\": [\x7b\"number\": 1, \"type\": \"title\", \"topic\": \"Intro\", \"description\": \"d\"\x7d, \x7b\"number\": 2, \"type\": \"content\", \"topic\": \"Body\", \"description\": \"d\"\x7d]\x7d".data).slides.length
      = 5) := by
  decide

set_option maxRecDepth 8192 in
/-- C9 amended: `generate_outline` embeds the requested slide count in the
instruction it sends (the prompt contains `Total slides: n`), but performs
no validation of the response: whatever outline the service response parses
to is stored and returned verbatim, so the returned entry count and
numbering are exactly those of the parsed response, not necessarily
`1..slide_count`. -/
theorem generate_outline_requests_count (topic : String) (num_slides : Nat)
    (parse : List Char → Option Outline) (service_response : List Char) (o : Outline)
    (hparse : parse (extract_payload service_response) = some o) :
    hasSubstr ("Total slides: ".data ++ (toString num_slides).data)
        (build_outline_prompt topic num_slides) = true
    ∧ generate_outline parse topic num_slides service_response = o := by
  constructor
  · unfold build_outline_prompt
    have hb : OUTLINE_PROMPT_B.data = "\"\n\nRequirements:\n- ".data ++ "Total slides: ".data := by
      decide
    rw [hb]
    rw [show OUTLINE_PROMPT_A.data ++ (topic.data ++ (("\"\n\nRequirements:\n- ".data
          ++ "Total slides: ".data) ++ ((toString num_slides).data ++ OUTLINE_PROMPT_C.data)))
        = (OUTLINE_PROMPT_A.data ++ (topic.data ++ "\"\n\nRequirements:\n- ".data))
          ++ (("Total slides: ".data ++ (toString num_slides).data) ++ OUTLINE_PROMPT_C.data) by
      simp]
    exact hasSubstr_sandwich _ _ _
  · unfold generate_outline
    rw [hparse]

set_option maxRecDepth 8192 in
/-- C9 witness: the concrete two-slide response above passed through the
theorem at the request `(Photosynthesis, 5)`. -/
theorem generate_outline_requests_count_witness :
    hasSubstr ("Total slides: ".data ++ (toString 5).data)
        (build_outline_prompt "Photosynthesis" 5) = true
    ∧ generate_outline
        (fun s =>
          if s = "\x7b\"slides\": []\x7d".data then some ⟨"T", []⟩ else none)
        "Photosynthesis" 5 "\x7b\"slides\": []\x7d".data = ⟨"T", []⟩ :=
  generate_outline_requests_count "Photosynthesis" 5
    (fun s => if s = "\x7b\"slides\": []\x7d".data then some ⟨"T", []⟩ else none)
    "\x7b\"slides\": []\x7d".data ⟨"T", []⟩ (by decide)

/-!
Derived output paths. `generate_ppt` (ppt_generator.py lines 744-749) and
the app form handler (app.py lines 225-229) build
`<sanitized-topic[:50]>_presentation.<ext>`;
`generate_presentation_interactive` (pptmaker_x.py lines 787-790) builds
`output/<sanitized-topic-after-[:30]>_<timestamp>.pptx`. Python
`str.isalnum` agrees with `Char.isAlphanum` on the ASCII topics at issue.
-/

/-- Per-character sanitization `c if c.isalnum() else '_'`. -/
def sanitize_char (c : Char) : Char :=
  if c.isAlphanum then c else '_'

/-- `safe_topic` of `generate_ppt` and app.py: sanitize every character of
the topic, then truncate to 50. -/
def safe_topic_50 (topic : String) : List Char :=
  (topic.data.map sanitize_char).take 50

/-- Auto-generated pptx filename of `generate_ppt`:
`f"{safe_topic}_presentation.pptx"`. -/
def generate_ppt_filename (topic : String) : List Char :=
  safe_topic_50 topic ++ "_presentation.pptx".data

/-- Auto-generated html filename of the app handler:
`f"{safe_topic}_presentation.html"`. -/
def app_html_filename (topic : String) : List Char :=
  safe_topic_50 topic ++ "_presentation.html".data

/-- Output path of `generate_presentation_interactive`: the topic is
truncated to 30 characters before sanitization and a timestamp is spliced
in: `f"output/{safe_topic}_{timestamp}.pptx"`. -/
def pptmaker_output_path (topic : String) (timestamp : List Char) : List Char :=
  "output/".data ++ ((topic.data.take 30).map sanitize_char
    ++ ("_".data ++ (timestamp ++ ".pptx".data)))

/-- Claim C10 as worded, for comparison: replace every non-alphanumeric
character with an underscore, truncate to the maximum length, then append
the format's canonical extension and nothing else. -/
def spec_derived_filename (topic : String) (max_len : Nat) (ext : List Char) : List Char :=
  (topic.data.map sanitize_char).take max_len ++ ext

/-- C10 counterexample: for the topic `AI` the derived pptx filename is
`AI_presentation.pptx`, not the claim-worded `AI.pptx` — a fixed
`_presentation` infix (and, in the interactive agent, an `_timestamp`
infix) sits between the truncated sanitized topic and the extension. -/
theorem derived_filename_counterexample :
    ¬ (generate_ppt_filename "AI" = spec_derived_filename "AI" 50 ".pptx".data) := by
  decide

/-- C10 amended: the derived name is the sanitized topic truncated to the
fixed maximum, then a fixed `_presentation` infix (or `_timestamp` under
`output/` in the interactive agent) and the canonical extension; every
sanitized character is alphanumeric or an underscore and the truncation
bound holds. -/
theorem derived_output_paths (topic : String) (timestamp : List Char) :
    generate_ppt_filename topic
      = (topic.data.map sanitize_char).take 50 ++ ("_presentation".data ++ ".pptx".data)
    ∧ app_html_filename topic
      = (topic.data.map sanitize_char).take 50 ++ ("_presentation".data ++ ".html".data)
    ∧ pptmaker_output_path topic timestamp
      = "output/".data ++ ((topic.data.map sanitize_char).take 30
          ++ ("_".data ++ (timestamp ++ ".pptx".data)))
    ∧ (∀ c ∈ topic.data.map sanitize_char, c.isAlphanum = true ∨ c = '_')
    ∧ (safe_topic_50 topic).length ≤ 50 := by
  refine ⟨?_, ?_, ?_, ?_, ?_⟩
  · unfold generate_ppt_filename safe_topic_50
    rw [show "_presentation.pptx".data = "_presentation".data ++ ".pptx".data by decide]
  · unfold app_html_filename safe_topic_50
    rw [show "_presentation.html".data = "_presentation".data ++ ".html".data by decide]
  · unfold pptmaker_output_path
    rw [List.map_take]
  · intro c hc
    obtain ⟨a, _, ha⟩ := List.mem_map.mp hc
    by_cases halnum : a.isAlphanum = true
    · left
      rw [← ha]
      unfold sanitize_char
      rw [if_pos halnum]
      exact halnum
    · right
      rw [← ha]
      unfold sanitize_char
      rw [if_neg halnum]
  · unfold safe_topic_50
    rw [List.length_take]
    omega

/-- C10 witness: the space in `A b` sanitizes to an underscore and the
concrete pptx filename decomposes as stated. -/
theorem derived_output_paths_witness :
    generate_ppt_filename "A b"
      = ("A b".data.map sanitize_char).take 50 ++ ("_presentation".data ++ ".pptx".data)
    ∧ (('_' : Char).isAlphanum = true ∨ ('_' : Char) = '_') :=
  ⟨(derived_output_paths "A b" []).1,
   (derived_output_paths "A b" []).2.2.2.1 '_' (by decide)⟩
